import Mathlib

/-!
Shallow embedding of `src/encoder.ts` (the canvas2video encoder) and proofs
about it.  The file models the JavaScript values a `JobConfig` field can hold,
the `typeCheck` and `createDir` helpers, the construction of the ffmpeg
complex-filter graph, the progress-percentage translation, and the
event-driven run of the `encoder` promise executor (setup followed by the
`start` / `progress` / `end` / `error` events), including JavaScript's
single-settle promise semantics.
-/

namespace Canvas2Video

/-- Model of the JavaScript values that can appear in a config field:
`undefined`, `null`, finite numbers (as rationals), `NaN`, the two
infinities, strings, `Readable` stream instances, and other objects. -/
inductive JSVal where
  | undef
  | nullV
  | num (q : ℚ)
  | nan
  | inf
  | negInf
  | str (s : String)
  | readable
  | obj
deriving DecidableEq

/-- JavaScript truthiness of a value: `undefined`, `null`, `0`, `NaN` and
the empty string are falsy, everything else is truthy. -/
def truthy : JSVal → Bool
  | .undef => false
  | .nullV => false
  | .num q => q ≠ 0
  | .nan => false
  | .inf => true
  | .negInf => true
  | .str s => s ≠ ""
  | .readable => true
  | .obj => true

/-- JavaScript `typeof` of a modelled value. -/
def typeOf : JSVal → String
  | .undef => "undefined"
  | .nullV => "object"
  | .num _ => "number"
  | .nan => "number"
  | .inf => "number"
  | .negInf => "number"
  | .str _ => "string"
  | .readable => "object"
  | .obj => "object"

/-- JavaScript `instanceof Readable` for a modelled value. -/
def isReadable : JSVal → Bool
  | .readable => true
  | _ => false

/-- JavaScript string coercion of a modelled value, as used by the `+`
string concatenations in the filter-graph construction.  Finite numbers
are rendered exactly for integers (the only numeric values the claims
exercise); non-integral rationals use the Lean rendering. -/
def jsNumToString (q : ℚ) : String :=
  if q.den = 1 then toString q.num else toString q

/-- String coercion for every modelled value. -/
def jsValToString : JSVal → String
  | .undef => "undefined"
  | .nullV => "null"
  | .num q => jsNumToString q
  | .nan => "NaN"
  | .inf => "Infinity"
  | .negInf => "-Infinity"
  | .str s => s
  | .readable => "[object Object]"
  | .obj => "[object Object]"

/-- The `fps` object of a config: `{ input, output }`, each field an
arbitrary JavaScript value. -/
structure Fps where
  input : JSVal
  output : JSVal
deriving DecidableEq

/-- The `backgroundVideo` object of a config:
`{ videoPath, inSeconds, outSeconds }`, each field an arbitrary
JavaScript value. -/
structure BackgroundVideo where
  videoPath : JSVal
  inSeconds : JSVal
  outSeconds : JSVal
deriving DecidableEq

/-- The destructured `config` argument of the encoder:
`{ frameStream, output, backgroundVideo, fps, silent = true }`.
`backgroundVideo` and `fps` are `none` when absent (`undefined`). -/
structure Config where
  frameStream : JSVal
  output : JSVal
  backgroundVideo : Option BackgroundVideo
  fps : Option Fps
  silent : Bool := true
deriving DecidableEq

/-- Embedding of `typeCheck(reject, config)`: the list of error messages
passed to `reject`, in the order the source fires them.  The source never
returns early, so every failing check contributes its message. -/
def typeCheck (config : Config) : List String :=
  (if !(isReadable config.frameStream) then
    ["frameStream should be in type Readable. You provided " ++
      typeOf config.frameStream]
  else []) ++
  (if !(typeOf config.output == "string") then
    ["output should be a string. You provided " ++ typeOf config.output]
  else []) ++
  (match config.fps with
   | none => ["fps should be an object with input and output properties"]
   | some fps =>
     if !(truthy fps.input && truthy fps.output) then
       ["fps should be an object with input and output properties"]
     else []) ++
  (match config.backgroundVideo with
   | none => []
   | some bv =>
     if !(truthy bv.inSeconds && truthy bv.outSeconds && truthy bv.videoPath)
     then ["backgroundVideo property is not correctly set"]
     else [])

/-- Embedding of `createDir(reject, silent, output)`.  Whether the
directory creation throws is an environment fact, passed in as
`dirCreationFails`.  Returns the console messages printed and the error
messages passed to `reject`.  Like the source, it does not stop the
caller on failure. -/
def createDir (silent : Bool) (dirCreationFails : Bool) :
    List String × List String :=
  if dirCreationFails then
    ((if !silent then ["Could not create/access output directory"] else []),
     ["Cannot create/access output directory"])
  else ([], [])

/-- The `options` object of the overlay entry of the complex filter. -/
structure OverlayOptions where
  enable : String
  x : String
  y : String
deriving DecidableEq

/-- The overlay entry of the complex filter:
`{ filter, options, inputs, outputs }`. -/
structure OverlayEntry where
  filter : String
  options : OverlayOptions
  inputs : String
  outputs : String
deriving DecidableEq

/-- The full argument of `command.complexFilter`: the `setpts` string
entry, the overlay entry, and the final output label (the second
argument of `complexFilter`). -/
structure ComplexFilterArg where
  setpts : String
  overlay : OverlayEntry
  finalOutputs : String
deriving DecidableEq

/-- Embedding of the `command.complexFilter([...], "tmp")` call made when
`backgroundVideo` is set, string for string as the source builds it. -/
def buildComplexFilter (bv : BackgroundVideo) : ComplexFilterArg :=
  { setpts := "[1:v]setpts=PTS+" ++ jsValToString bv.inSeconds ++ "/TB[out]"
    overlay :=
      { filter := "overlay"
        options :=
          { enable := "between(t," ++ jsValToString bv.inSeconds ++ "," ++
              jsValToString bv.outSeconds ++ ")"
            x := "0"
            y := "0" }
        inputs := "[0:v][out]"
        outputs := "tmp" }
    finalOutputs := "tmp" }

/-- One `command.input(...)` call: either the background video path or the
frame stream. -/
inductive InputSrc where
  | backgroundPath (p : JSVal)
  | frames (s : JSVal)
deriving DecidableEq

/-- The raw `progress.percent` field of a progress event: absent,
`NaN`, infinite, or a finite number. -/
inductive RawPercent where
  | missing
  | nanP
  | infP
  | negInfP
  | finite (q : ℚ)
deriving DecidableEq

/-- A JavaScript number as forwarded to the progress bar (`NaN` cannot
arise: a `NaN` percent is falsy and is replaced by `0`). -/
inductive JSNum where
  | fin (q : ℚ)
  | inf
  | negInf
deriving DecidableEq

/-- Truthiness of the raw percent (`undefined`, `NaN` and `0` are falsy). -/
def rawTruthy : RawPercent → Bool
  | .missing => false
  | .nanP => false
  | .infP => true
  | .negInfP => true
  | .finite q => q ≠ 0

/-- Idealised `parseFloat(q.toFixed(2))` on a finite number: round to two
decimal places, ties towards the larger value as ECMAScript `toFixed`
prescribes.  Computed on the reduced numerator and denominator so that it
evaluates by kernel reduction; `jsRound2_eq_floor` proves it equal to
`⌊q * 100 + 1 / 2⌋ / 100`. -/
def jsRound2 (q : ℚ) : ℚ :=
  mkRat ((200 * q.num + (q.den : ℤ)) / (2 * (q.den : ℤ))) 100

/-- Embedding of
`progress.percent ? parseFloat((progress.percent).toFixed(2)) : 0`. -/
def forwardedPercent (p : RawPercent) : JSNum :=
  if rawTruthy p then
    match p with
    | .infP => .inf
    | .negInfP => .negInf
    | .finite q => .fin (jsRound2 q)
    | .missing => .fin 0
    | .nanP => .fin 0
  else .fin 0

/-- The lifecycle events the ffmpeg command emits after `run()`. -/
inductive Event where
  | started (commandLine : String)
  | progress (p : RawPercent)
  | ended
  | errored (msg : String)
deriving DecidableEq

/-- `started` and `progress` never settle the job. -/
def nonTerminal : Event → Bool
  | .started _ => true
  | .progress _ => true
  | .ended => false
  | .errored _ => false

/-- The state of the job's promise: pending, resolved with
`{ path, stream }` (the stream is the sink handle's identifier), or
rejected with an error message. -/
inductive Outcome where
  | pending
  | resolved (path : JSVal) (stream : Nat)
  | rejected (msg : String)
deriving DecidableEq

/-- JavaScript promise settlement: `resolve`/`reject` are no-ops once the
promise is settled. -/
def settle (o : Outcome) (n : Outcome) : Outcome :=
  match o with
  | .pending => n
  | _ => o

/-- Mutable state threaded through the event handlers. -/
structure RunState where
  outcome : Outcome
  forwarded : List JSNum
  logs : List String
  resolveCalls : Nat
  rejectCalls : Nat
deriving DecidableEq

/-- One event handler step, as registered by `command.on(...)` in the
source.  `output` is the configured output path and `sink` the handle of
the write stream opened for the job. -/
def stepEvent (silent : Bool) (output : JSVal) (sink : Nat)
    (st : RunState) (e : Event) : RunState :=
  match e with
  | .started cl =>
    { st with
      logs := st.logs ++
        (if !silent then ["Spawned Ffmpeg with command: " ++ cl] else []) }
  | .progress p =>
    if !silent then
      { st with forwarded := st.forwarded ++ [forwardedPercent p] }
    else st
  | .ended =>
    { st with
      logs := st.logs ++ (if !silent then ["Processing complete..."] else [])
      outcome := settle st.outcome (.resolved output sink)
      resolveCalls := st.resolveCalls + 1 }
  | .errored m =>
    { st with
      logs := st.logs ++
        (if !silent then ["An error occured while processing, " ++ m] else [])
      outcome := settle st.outcome (.rejected m)
      rejectCalls := st.rejectCalls + 1 }

/-- Everything observable about one run of the encoder on a config:
the settled outcome, the percentages forwarded to the progress bar, the
console output, whether the output write stream was opened and the
ffmpeg process started, the `command.input` calls in order, the complex
filter installed, and how often `resolve`/`reject` were invoked. -/
structure RunResult where
  outcome : Outcome
  forwarded : List JSNum
  logs : List String
  sinkOpened : Bool
  openedSink : Option Nat
  processStarted : Bool
  commandInputs : List InputSrc
  complexFilter : Option ComplexFilterArg
  outputOptions : List String
  resolveCalls : Nat
  rejectCalls : Nat
deriving DecidableEq

/-- Embedding of the promise executor of `encoder(config)`: run
`typeCheck`, run `createDir`, open the write stream, build the command
(inputs, output options, optional complex filter), register the event
handlers and call `command.run()`, then process the given event list.
The source never aborts after a `reject`, so the stream is always opened
and the process always started; the promise keeps only the first
settlement. -/
def encoder (config : Config) (dirCreationFails : Bool)
    (events : List Event) : RunResult :=
  let tcMsgs := typeCheck config
  let dirRes := createDir config.silent dirCreationFails
  let setupMsgs := tcMsgs ++ dirRes.2
  let setupOutcome :=
    setupMsgs.foldl (fun o m => settle o (.rejected m)) .pending
  let sink := 0
  let st0 : RunState :=
    { outcome := setupOutcome
      forwarded := []
      logs := dirRes.1
      resolveCalls := 0
      rejectCalls := setupMsgs.length }
  let stF := events.foldl (stepEvent config.silent config.output sink) st0
  { outcome := stF.outcome
    forwarded := stF.forwarded
    logs := stF.logs
    sinkOpened := true
    openedSink := some sink
    processStarted := true
    commandInputs :=
      (match config.backgroundVideo with
       | some bv => [InputSrc.backgroundPath bv.videoPath]
       | none => []) ++ [InputSrc.frames config.frameStream]
    complexFilter := config.backgroundVideo.map buildComplexFilter
    outputOptions :=
      ["-preset veryfast", "-crf 24", "-f mp4",
       "-movflags frag_keyframe+empty_moov", "-pix_fmt yuv420p"]
    resolveCalls := stF.resolveCalls
    rejectCalls := stF.rejectCalls }

/-- A config that passes every check: a `Readable` frame stream, a string
output path, `fps = { input: 30, output: 30 }`, and no background video. -/
def validConfig : Config :=
  { frameStream := .readable
    output := .str "out/video.mp4"
    backgroundVideo := none
    fps := some ⟨.num 30, .num 30⟩ }

/-- The valid config with `silent: false` (verbose mode). -/
def verboseConfig : Config := { validConfig with silent := false }

/-- A config whose `frameStream` is the number `3` instead of a
`Readable`. -/
def badStreamConfig : Config := { validConfig with frameStream := .num 3 }

/-- A config with `fps = { input: 0, output: 30 }`: `fps.input` is falsy,
so validation rejects, while every later pipeline step still executes
cleanly on it. -/
def zeroFpsConfig : Config :=
  { validConfig with fps := some ⟨.num 0, .num 30⟩ }

/-- A config failing two checks at once: `frameStream` is the number `3`
and `output` is the number `7`. -/
def doublyBadConfig : Config :=
  { validConfig with frameStream := .num 3, output := .num 7 }

/-- A config with `fps = { input: -5, output: 30 }`: the input rate is a
negative number. -/
def negativeFpsConfig : Config :=
  { validConfig with fps := some ⟨.num (-5), .num 30⟩ }

/-- A config whose overlay window is reversed:
`backgroundVideo = { videoPath: "bg.mp4", inSeconds: 5, outSeconds: 2 }`. -/
def reversedWindowConfig : Config :=
  { validConfig with backgroundVideo := some ⟨.str "bg.mp4", .num 5, .num 2⟩ }

/-- A config with
`backgroundVideo = { videoPath: "bg.mp4", inSeconds: 2, outSeconds: 5 }`. -/
def overlayConfig : Config :=
  { validConfig with backgroundVideo := some ⟨.str "bg.mp4", .num 2, .num 5⟩ }

/-- A config with a zero-offset overlay:
`backgroundVideo = { videoPath: "bg.mp4", inSeconds: 0, outSeconds: 5 }`. -/
def zeroInConfig : Config :=
  { validConfig with backgroundVideo := some ⟨.str "bg.mp4", .num 0, .num 5⟩ }

theorem jsRound2_eq_floor (q : ℚ) :
    jsRound2 q = (⌊q * 100 + 1 / 2⌋ : ℚ) / 100 := by
  have hd : (q.den : ℚ) ≠ 0 := Nat.cast_ne_zero.mpr q.den_nz
  have hq : (q.num : ℚ) / (q.den : ℚ) = q := Rat.num_div_den q
  have hq2 : (q : ℚ) * (q.den : ℚ) = (q.num : ℚ) := (eq_div_iff hd).mp hq.symm
  have hfl : ((200 * q.num + (q.den : ℤ)) / (2 * (q.den : ℤ)) : ℤ)
      = ⌊((200 * q.num + (q.den : ℤ) : ℤ) : ℚ) / ((2 * q.den : ℕ) : ℚ)⌋ := by
    rw [Rat.floor_intCast_div_natCast]
    push_cast
    ring_nf
  have harg : ((200 * q.num + (q.den : ℤ) : ℤ) : ℚ) / ((2 * q.den : ℕ) : ℚ)
      = q * 100 + 1 / 2 := by
    rw [div_eq_iff (by push_cast; positivity)]
    push_cast
    linear_combination (-200 : ℚ) * hq2
  rw [jsRound2, Rat.mkRat_eq_div, hfl, harg]
  norm_num

theorem jsRound2_nonneg {q : ℚ} (h : 0 ≤ q) : 0 ≤ jsRound2 q := by
  rw [jsRound2_eq_floor]
  apply div_nonneg _ (by norm_num)
  have : (0 : ℤ) ≤ ⌊q * 100 + 1 / 2⌋ :=
    Int.floor_nonneg.mpr (by nlinarith)
  exact_mod_cast this

theorem jsRound2_le_100 {q : ℚ} (h : q ≤ 100) : jsRound2 q ≤ 100 := by
  rw [jsRound2_eq_floor]
  rw [div_le_iff₀ (by norm_num : (0 : ℚ) < 100)]
  have hlt : (⌊q * 100 + 1 / 2⌋ : ℤ) < 10001 :=
    Int.floor_lt.mpr (by push_cast; nlinarith)
  have : (⌊q * 100 + 1 / 2⌋ : ℤ) ≤ 10000 := by omega
  calc ((⌊q * 100 + 1 / 2⌋ : ℤ) : ℚ) ≤ (10000 : ℚ) := by exact_mod_cast this
    _ = 100 * 100 := by norm_num

theorem typeOf_cases (v : JSVal) :
    typeOf v = "undefined" ∨ typeOf v = "object" ∨ typeOf v = "number" ∨
      typeOf v = "string" := by
  cases v <;> simp [typeOf]

theorem mem_typeCheck_fps_iff (cfg : Config) (f : Fps) (h : cfg.fps = some f) :
    "fps should be an object with input and output properties" ∈ typeCheck cfg ↔
      ¬(truthy f.input = true ∧ truthy f.output = true) := by
  simp only [typeCheck, h, List.mem_append]
  constructor
  · rintro (((h1 | h1) | h1) | h1)
    · exfalso
      split at h1
      · rcases typeOf_cases cfg.frameStream with ht | ht | ht | ht <;>
          rw [ht] at h1 <;> exact absurd h1 (by decide)
      · simp at h1
    · exfalso
      split at h1
      · rcases typeOf_cases cfg.output with ht | ht | ht | ht <;>
          rw [ht] at h1 <;> exact absurd h1 (by decide)
      · simp at h1
    · intro hc
      obtain ⟨hi, ho⟩ := hc
      rw [hi, ho] at h1
      simp at h1
    · exfalso
      revert h1
      rcases cfg.backgroundVideo with _ | bv
      · intro h1
        simp at h1
      · intro h1
        split at h1
        · exact absurd h1 (by decide)
        · simp at h1
  · intro hc
    have hb : (truthy f.input && truthy f.output) = false := by
      cases hi : truthy f.input <;> cases ho : truthy f.output <;> simp_all
    refine Or.inl (Or.inr ?_)
    rw [hb]
    simp

theorem mem_typeCheck_background_iff (cfg : Config) (bv : BackgroundVideo)
    (h : cfg.backgroundVideo = some bv) :
    "backgroundVideo property is not correctly set" ∈ typeCheck cfg ↔
      ¬(truthy bv.inSeconds = true ∧ truthy bv.outSeconds = true ∧
        truthy bv.videoPath = true) := by
  simp only [typeCheck, h, List.mem_append]
  constructor
  · rintro (((h1 | h1) | h1) | h1)
    · exfalso
      split at h1
      · rcases typeOf_cases cfg.frameStream with ht | ht | ht | ht <;>
          rw [ht] at h1 <;> exact absurd h1 (by decide)
      · simp at h1
    · exfalso
      split at h1
      · rcases typeOf_cases cfg.output with ht | ht | ht | ht <;>
          rw [ht] at h1 <;> exact absurd h1 (by decide)
      · simp at h1
    · exfalso
      revert h1
      rcases cfg.fps with _ | f
      · intro h1
        exact absurd h1 (by decide)
      · intro h1
        split at h1
        · exact absurd h1 (by decide)
        · simp at h1
    · intro hc
      obtain ⟨hi, ho, hv⟩ := hc
      rw [hi, ho, hv] at h1
      simp at h1
  · intro hc
    have hb : (truthy bv.inSeconds && truthy bv.outSeconds && truthy bv.videoPath)
        = false := by
      cases hi : truthy bv.inSeconds <;> cases ho : truthy bv.outSeconds <;>
        cases hv : truthy bv.videoPath <;> simp_all
    refine Or.inr ?_
    rw [hb]
    simp

theorem settle_of_ne_pending {o : Outcome} (h : o ≠ Outcome.pending)
    (n : Outcome) : settle o n = o := by
  cases o with
  | pending => exact absurd rfl h
  | resolved p s => rfl
  | rejected m => rfl

theorem stepEvent_outcome_of_nonTerminal (s : Bool) (out : JSVal) (k : Nat)
    (st : RunState) (e : Event) (h : nonTerminal e = true) :
    (stepEvent s out k st e).outcome = st.outcome := by
  cases e with
  | started cl => rfl
  | progress p =>
    simp only [stepEvent]
    split
    · rfl
    · rfl
  | ended => simp [nonTerminal] at h
  | errored m => simp [nonTerminal] at h

theorem foldl_outcome_of_nonTerminal (s : Bool) (out : JSVal) (k : Nat)
    (evs : List Event) (st : RunState)
    (h : ∀ e ∈ evs, nonTerminal e = true) :
    (evs.foldl (stepEvent s out k) st).outcome = st.outcome := by
  induction evs generalizing st with
  | nil => rfl
  | cons e evs ih =>
    rw [List.foldl_cons,
      ih _ (fun x hx => h x (List.mem_cons_of_mem _ hx)),
      stepEvent_outcome_of_nonTerminal s out k st e (h e (List.mem_cons_self _ _))]

theorem stepEvent_outcome_of_settled (s : Bool) (out : JSVal) (k : Nat)
    (st : RunState) (e : Event) (h : st.outcome ≠ Outcome.pending) :
    (stepEvent s out k st e).outcome = st.outcome := by
  cases e with
  | started cl => rfl
  | progress p =>
    simp only [stepEvent]
    split
    · rfl
    · rfl
  | ended => simp [stepEvent, settle_of_ne_pending h]
  | errored m => simp [stepEvent, settle_of_ne_pending h]

theorem foldl_outcome_of_settled (s : Bool) (out : JSVal) (k : Nat)
    (evs : List Event) (st : RunState) (h : st.outcome ≠ Outcome.pending) :
    (evs.foldl (stepEvent s out k) st).outcome = st.outcome := by
  induction evs generalizing st with
  | nil => rfl
  | cons e evs ih =>
    rw [List.foldl_cons]
    rw [ih _ (by rw [stepEvent_outcome_of_settled s out k st e h]; exact h)]
    exact stepEvent_outcome_of_settled s out k st e h

theorem encoder_outcome (cfg : Config) (d : Bool) (events : List Event) :
    (encoder cfg d events).outcome =
      (events.foldl (stepEvent cfg.silent cfg.output 0)
        { outcome := (typeCheck cfg ++ (createDir cfg.silent d).2).foldl
            (fun o m => settle o (Outcome.rejected m)) Outcome.pending
          forwarded := []
          logs := (createDir cfg.silent d).1
          resolveCalls := 0
          rejectCalls :=
            (typeCheck cfg ++ (createDir cfg.silent d).2).length }).outcome :=
  rfl

theorem encoder_outcome_events (cfg : Config) (events : List Event)
    (hType : typeCheck cfg = []) :
    (encoder cfg false events).outcome =
      (events.foldl (stepEvent cfg.silent cfg.output 0)
        { outcome := Outcome.pending, forwarded := [], logs := [],
          resolveCalls := 0, rejectCalls := 0 }).outcome := by
  rw [encoder_outcome]
  simp [hType, createDir]

/-- Claim C1 (code behaviour at the failing input): a config whose
`fps.input` is `0` is rejected with the ConfigError naming the fps
field, but the output write stream is still opened and the external
ffmpeg process is still started for the job. -/
theorem invalid_fps_rejects_but_sink_and_process_still_created :
    (encoder zeroFpsConfig false []).outcome =
      Outcome.rejected
        "fps should be an object with input and output properties" ∧
    (encoder zeroFpsConfig false []).sinkOpened = true ∧
    (encoder zeroFpsConfig false []).processStarted = true :=
  ⟨by decide, rfl, rfl⟩

/-- Claim C2: with `backgroundVideo` present the command gets the
background video as input 0 and the frame stream as input 1, and the
complex filter is the two-stage graph `[1:v]setpts=PTS+inSeconds/TB[out]`
followed by an overlay at (0,0) enabled on
`between(t,inSeconds,outSeconds)` with inputs `[0:v][out]`, sole final
output `tmp`; at `inSeconds = 2, outSeconds = 5` the gate is
`between(t,2,5)` and the timestamp-shift string is
`[1:v]setpts=PTS+2/TB[out]`. -/
theorem overlay_filter_graph (cfg : Config) (bv : BackgroundVideo)
    (d : Bool) (evs : List Event) (h : cfg.backgroundVideo = some bv) :
    (encoder cfg d evs).complexFilter = some (buildComplexFilter bv) ∧
    (encoder cfg d evs).commandInputs =
      [InputSrc.backgroundPath bv.videoPath, InputSrc.frames cfg.frameStream] ∧
    buildComplexFilter bv =
      { setpts := "[1:v]setpts=PTS+" ++ jsValToString bv.inSeconds ++ "/TB[out]"
        overlay :=
          { filter := "overlay"
            options :=
              { enable := "between(t," ++ jsValToString bv.inSeconds ++ "," ++
                  jsValToString bv.outSeconds ++ ")"
                x := "0"
                y := "0" }
            inputs := "[0:v][out]"
            outputs := "tmp" }
        finalOutputs := "tmp" } ∧
    (bv.inSeconds = JSVal.num 2 → bv.outSeconds = JSVal.num 5 →
      (buildComplexFilter bv).overlay.options.enable = "between(t,2,5)" ∧
      (buildComplexFilter bv).setpts = "[1:v]setpts=PTS+2/TB[out]") := by
  refine ⟨?_, ?_, rfl, ?_⟩
  · simp [encoder, h]
  · simp [encoder, h]
  · intro h2 h5
    constructor
    · simp only [buildComplexFilter, h2, h5]
      decide
    · simp only [buildComplexFilter, h2]
      decide

theorem overlay_filter_graph_witness :
    (encoder overlayConfig false []).complexFilter =
      some (buildComplexFilter ⟨JSVal.str "bg.mp4", JSVal.num 2, JSVal.num 5⟩) ∧
    (buildComplexFilter
        ⟨JSVal.str "bg.mp4", JSVal.num 2, JSVal.num 5⟩).overlay.options.enable =
      "between(t,2,5)" :=
  ⟨(overlay_filter_graph overlayConfig _ false [] rfl).1,
   ((overlay_filter_graph overlayConfig _ false [] rfl).2.2.2 rfl rfl).1⟩

/-- Claim C3 counterexample: in verbose mode a raw progress signal whose
percent is the finite number `-5` is forwarded to the progress reporter
as `-5`, a negative value outside `[0,100]`. -/
theorem negative_percent_forwarded_negative :
    (encoder verboseConfig false
        [Event.progress (RawPercent.finite (-5))]).forwarded =
      [JSNum.fin (-5)] ∧ ((-5 : ℚ) < 0) :=
  ⟨by decide, by norm_num⟩

/-- Claim C3 (amended): the value forwarded on a progress signal in
verbose mode is `0` whenever the raw percent is falsy (missing, `NaN`,
or `0`) and otherwise `parseFloat(percent.toFixed(2))`; when the raw
percent is a finite number already in `[0,100]` the forwarded value also
lies in `[0,100]`, but out-of-range or infinite raw values are forwarded
unclamped. -/
theorem progress_forwarding (cfg : Config) (d : Bool) (p : RawPercent)
    (hs : cfg.silent = false) :
    (encoder cfg d [Event.progress p]).forwarded = [forwardedPercent p] ∧
    (rawTruthy p = false → forwardedPercent p = JSNum.fin 0) ∧
    (∀ q : ℚ, p = RawPercent.finite q → 0 ≤ q → q ≤ 100 →
      ∃ v : ℚ, forwardedPercent p = JSNum.fin v ∧ 0 ≤ v ∧ v ≤ 100) := by
  refine ⟨?_, ?_, ?_⟩
  · simp [encoder, stepEvent, hs]
  · intro hf
    simp [forwardedPercent, hf]
  · rintro q rfl h0 h1
    by_cases hq : q = 0
    · subst hq
      exact ⟨0, by simp [forwardedPercent, rawTruthy], le_refl 0, by norm_num⟩
    · refine ⟨jsRound2 q, ?_, jsRound2_nonneg h0, jsRound2_le_100 h1⟩
      simp [forwardedPercent, rawTruthy, hq]

theorem progress_forwarding_witness :
    (encoder verboseConfig false
        [Event.progress (RawPercent.finite 50)]).forwarded =
      [forwardedPercent (RawPercent.finite 50)] :=
  (progress_forwarding verboseConfig false (RawPercent.finite 50) rfl).1

/-- Claim C4 (code behaviour at the failing input): when directory
creation throws, the job rejects with the IOError message and in verbose
mode logs the diagnostic first, but contrary to the claim the output
write stream is still opened and the external process is still
started. -/
theorem dirFailure_rejects_but_process_still_started :
    (encoder verboseConfig true []).outcome =
      Outcome.rejected "Cannot create/access output directory" ∧
    (encoder verboseConfig true []).logs =
      ["Could not create/access output directory"] ∧
    (encoder verboseConfig true []).sinkOpened = true ∧
    (encoder verboseConfig true []).processStarted = true :=
  ⟨by decide, by decide, rfl, rfl⟩

/-- Claim C5: for a job that passed validation and directory creation,
the completion signal resolves the promise with
`{ path: output, stream: sink-handle }`, and no event processed after it
(further completions, errors or progress) changes the outcome. -/
theorem end_resolves_with_output_path (cfg : Config) (pre rest : List Event)
    (hType : typeCheck cfg = [])
    (hPre : ∀ e ∈ pre, nonTerminal e = true) :
    (encoder cfg false (pre ++ Event.ended :: rest)).outcome =
      Outcome.resolved cfg.output 0 ∧
    (encoder cfg false (pre ++ Event.ended :: rest)).openedSink = some 0 := by
  refine ⟨?_, rfl⟩
  rw [encoder_outcome_events cfg _ hType, List.foldl_append, List.foldl_cons]
  have h0 : (pre.foldl (stepEvent cfg.silent cfg.output 0)
      { outcome := Outcome.pending, forwarded := [], logs := [],
        resolveCalls := 0, rejectCalls := 0 }).outcome = Outcome.pending :=
    foldl_outcome_of_nonTerminal _ _ _ _ _ hPre
  have h1 : (stepEvent cfg.silent cfg.output 0
      (pre.foldl (stepEvent cfg.silent cfg.output 0)
        { outcome := Outcome.pending, forwarded := [], logs := [],
          resolveCalls := 0, rejectCalls := 0 }) Event.ended).outcome =
      Outcome.resolved cfg.output 0 := by
    simp [stepEvent, settle, h0]
  rw [foldl_outcome_of_settled _ _ _ rest _ (by rw [h1]; simp), h1]

theorem end_resolves_with_output_path_witness :
    (encoder validConfig false
        ([Event.started "ffmpeg -i pipe:0",
          Event.progress (RawPercent.finite 50)] ++
          Event.ended :: [Event.errored "late error", Event.ended])).outcome =
      Outcome.resolved validConfig.output 0 :=
  (end_resolves_with_output_path validConfig _ _ (by decide) (by decide)).1

/-- Claim C6: for a job that passed validation and directory creation,
an error signal carrying message `m` rejects the promise with exactly
`m`, whatever the verbosity flag is (the theorem quantifies over the
whole config, so over both values of `silent`). -/
theorem error_rejects_with_message (cfg : Config) (pre rest : List Event)
    (m : String) (hType : typeCheck cfg = [])
    (hPre : ∀ e ∈ pre, nonTerminal e = true) :
    (encoder cfg false (pre ++ Event.errored m :: rest)).outcome =
      Outcome.rejected m := by
  rw [encoder_outcome_events cfg _ hType, List.foldl_append, List.foldl_cons]
  have h0 : (pre.foldl (stepEvent cfg.silent cfg.output 0)
      { outcome := Outcome.pending, forwarded := [], logs := [],
        resolveCalls := 0, rejectCalls := 0 }).outcome = Outcome.pending :=
    foldl_outcome_of_nonTerminal _ _ _ _ _ hPre
  have h1 : (stepEvent cfg.silent cfg.output 0
      (pre.foldl (stepEvent cfg.silent cfg.output 0)
        { outcome := Outcome.pending, forwarded := [], logs := [],
          resolveCalls := 0, rejectCalls := 0 }) (Event.errored m)).outcome =
      Outcome.rejected m := by
    simp [stepEvent, settle, h0]
  rw [foldl_outcome_of_settled _ _ _ rest _ (by rw [h1]; simp), h1]

theorem error_rejects_with_message_witness :
    (encoder verboseConfig false
        ([Event.started "ffmpeg -i pipe:0"] ++
          Event.errored "ffmpeg exited with code 1" :: [])).outcome =
      Outcome.rejected "ffmpeg exited with code 1" :=
  error_rejects_with_message verboseConfig _ _ _ (by decide) (by decide)

/-- Claim C7 counterexample: `fps = { input: -5, output: 30 }` — an input
rate that is not a positive number — passes `typeCheck` without any
rejection, so the validator does not reject `input ≤ 0`. -/
theorem negative_fps_passes_validation :
    negativeFpsConfig.fps = some ⟨JSVal.num (-5), JSVal.num 30⟩ ∧
    typeCheck negativeFpsConfig = [] :=
  ⟨rfl, by decide⟩

theorem mem_typeCheck_fps_iff_general (cfg : Config) :
    "fps should be an object with input and output properties" ∈
        typeCheck cfg ↔
      (cfg.fps = none ∨ ∃ f : Fps, cfg.fps = some f ∧
        ¬(truthy f.input = true ∧ truthy f.output = true)) := by
  cases hf : cfg.fps with
  | none =>
    constructor
    · intro _
      exact Or.inl rfl
    · intro _
      simp only [typeCheck, hf, List.mem_append]
      exact Or.inl (Or.inr (by simp))
  | some f =>
    rw [mem_typeCheck_fps_iff cfg f hf]
    constructor
    · intro h
      exact Or.inr ⟨f, rfl, h⟩
    · rintro (h | ⟨f2, hf2, h2⟩)
      · exact absurd h (by simp)
      · rw [Option.some.inj hf2]
        exact h2

/-- Claim C7 (amended): the validator signals the fps ConfigError exactly
when `fps` is absent or one of `input`/`output` is falsy (`0`, `NaN`,
missing); positivity is not checked, so any nonzero numeric rates —
including negative ones — are accepted. -/
theorem fps_check_truthiness (cfg : Config) :
    ("fps should be an object with input and output properties" ∈
        typeCheck cfg ↔
      (cfg.fps = none ∨ ∃ f : Fps, cfg.fps = some f ∧
        ¬(truthy f.input = true ∧ truthy f.output = true))) ∧
    (∀ (f : Fps) (qi qo : ℚ), cfg.fps = some f →
      f.input = JSVal.num qi → f.output = JSVal.num qo →
      qi ≠ 0 → qo ≠ 0 →
      "fps should be an object with input and output properties" ∉
        typeCheck cfg) := by
  refine ⟨mem_typeCheck_fps_iff_general cfg, ?_⟩
  rintro f qi qo hf hi ho hqi hqo hmem
  rw [mem_typeCheck_fps_iff cfg f hf] at hmem
  exact hmem ⟨by simp [truthy, hi, hqi], by simp [truthy, ho, hqo]⟩

theorem fps_check_truthiness_witness :
    "fps should be an object with input and output properties" ∉
      typeCheck negativeFpsConfig :=
  (fps_check_truthiness negativeFpsConfig).2 ⟨JSVal.num (-5), JSVal.num 30⟩
    (-5) 30 rfl rfl rfl (by norm_num) (by norm_num)

/-- Claim C8 counterexample: the overlay window
`{ videoPath: "bg.mp4", inSeconds: 5, outSeconds: 2 }` violates
`outSeconds > inSeconds`, yet `typeCheck` emits no rejection at all. -/
theorem reversed_window_passes_validation :
    reversedWindowConfig.backgroundVideo =
      some ⟨JSVal.str "bg.mp4", JSVal.num 5, JSVal.num 2⟩ ∧
    typeCheck reversedWindowConfig = [] :=
  ⟨rfl, by decide⟩

/-- Claim C8 (amended): with `backgroundVideo` present the validator
signals the ConfigError exactly when one of the three fields is falsy;
the ordering `outSeconds > inSeconds` is never compared, so any window
with nonzero endpoints and a nonempty path is accepted, reversed or
not. -/
theorem background_check_truthiness (cfg : Config) (bv : BackgroundVideo)
    (h : cfg.backgroundVideo = some bv) :
    ("backgroundVideo property is not correctly set" ∈ typeCheck cfg ↔
      ¬(truthy bv.inSeconds = true ∧ truthy bv.outSeconds = true ∧
        truthy bv.videoPath = true)) ∧
    (∀ qi qo : ℚ, bv.inSeconds = JSVal.num qi → bv.outSeconds = JSVal.num qo →
      qi ≠ 0 → qo ≠ 0 → truthy bv.videoPath = true →
      "backgroundVideo property is not correctly set" ∉ typeCheck cfg) := by
  refine ⟨mem_typeCheck_background_iff cfg bv h, ?_⟩
  rintro qi qo hi ho hqi hqo hv hmem
  rw [mem_typeCheck_background_iff cfg bv h] at hmem
  exact hmem ⟨by simp [truthy, hi, hqi], by simp [truthy, ho, hqo], hv⟩

theorem background_check_truthiness_witness :
    "backgroundVideo property is not correctly set" ∉
      typeCheck reversedWindowConfig :=
  (background_check_truthiness reversedWindowConfig
      ⟨JSVal.str "bg.mp4", JSVal.num 5, JSVal.num 2⟩ rfl).2
    5 2 rfl rfl (by norm_num) (by norm_num) (by decide)

/-- Claim C9 (code behaviour at the failing input): a config failing two
checks at once (`frameStream` a number, `output` a number) makes the
source invoke the reject callback twice during validation; the promise
keeps the first message. -/
theorem double_failure_invokes_reject_twice :
    (encoder doublyBadConfig false []).rejectCalls = 2 ∧
    (encoder doublyBadConfig false []).outcome =
      Outcome.rejected
        "frameStream should be in type Readable. You provided number" :=
  ⟨by decide, by decide⟩

/-- Claim C10: a `backgroundVideo` whose `inSeconds` is the number `0` is
always rejected with "backgroundVideo property is not correctly set",
because the presence check uses truthiness and `0` is falsy. -/
theorem zero_inSeconds_rejected (cfg : Config) (bv : BackgroundVideo)
    (h : cfg.backgroundVideo = some bv) (h0 : bv.inSeconds = JSVal.num 0) :
    "backgroundVideo property is not correctly set" ∈ typeCheck cfg := by
  rw [mem_typeCheck_background_iff cfg bv h]
  rintro ⟨hi, ho, hv⟩
  rw [h0] at hi
  simp [truthy] at hi

theorem zero_inSeconds_rejected_witness :
    "backgroundVideo property is not correctly set" ∈ typeCheck zeroInConfig :=
  zero_inSeconds_rejected zeroInConfig
    ⟨JSVal.str "bg.mp4", JSVal.num 0, JSVal.num 5⟩ rfl rfl

end Canvas2Video
